import Mathlib

/-!
Verification development for `src/streamlit_app.py`, a single-user Streamlit
CRUD application over a SQLite database (SQLAlchemy ORM).

Embedding conventions:
* Dates (`datetime.date`) are modelled as `Nat` (a day ordinal).
* PDF binary content is modelled as `String`.
* The SQLite store is a record of four lists of typed rows (one per table of
  `define_models`, lines 20-61).  Fields declared `nullable=False` are plain
  values in a row; nullable fields are `Option`s.
* A pending ORM object (before `session.commit()`) carries `Option` in every
  field, since Python permits passing `None` anywhere; the insert operation
  enforces the NOT NULL constraints, as SQLite does at commit time.
* SQLite assigns a new rowid as one plus the largest rowid present (the
  models use `Integer primary_key autoincrement` which SQLAlchemy renders as
  plain `INTEGER PRIMARY KEY`, without the `AUTOINCREMENT` keyword).
* Foreign keys are declared in the models but the engine never issues
  `PRAGMA foreign_keys=ON`, so SQLite does not enforce them; the insert
  operations therefore perform no referential check.
* `json.loads` is modelled by an executable recursive-descent parser for the
  JSON fragment this application exercises (objects, arrays, strings with
  simple escapes, integers, `true`/`false`/`null`); floating-point numbers
  and `\u` escapes are outside the fragment and are rejected by the model.
-/

namespace EmpresasApp

/-- Braces are referred to through these constants. -/
def lbrace : Char := Char.ofNat 123

def rbrace : Char := Char.ofNat 125

/-- JSON values, the content of the `detalhes` JSON column. -/
inductive Json where
  | null : Json
  | bool (b : Bool) : Json
  | num (n : Int) : Json
  | str (s : String) : Json
  | arr (elems : List Json) : Json
  | obj (members : List (String × Json)) : Json

/-- Row of table `empresa` (lines 21-29): all three data columns are NOT NULL. -/
structure EmpresaRow where
  empresa_id : Nat
  nome : String
  forma_juridica : String
  data_constituicao : Nat
deriving DecidableEq

/-- Row of table `socio` (lines 31-39): `nif` and `morada` are nullable. -/
structure SocioRow where
  socio_id : Nat
  nome : String
  nif : Option String
  morada : Option String
deriving DecidableEq

/-- Row of table `pdffile` (lines 41-46): all data columns NOT NULL. -/
structure PDFRow where
  file_id : Nat
  nome : String
  data_upload : Nat
  conteudo : String
deriving DecidableEq

/-- Row of table `evento_empresa` (lines 48-59): `empresa_id`, `data_evento`
and `tipo` are NOT NULL; `socio_id`, `detalhes`, `arquivo_pdf_id` nullable. -/
structure EventoRow where
  evento_id : Nat
  empresa_id : Nat
  socio_id : Option Nat
  data_evento : Nat
  tipo : String
  detalhes : Option Json
  arquivo_pdf_id : Option Nat

/-- The state of the SQLite database: the four tables. -/
structure DB where
  empresas : List EmpresaRow
  socios : List SocioRow
  pdfs : List PDFRow
  eventos : List EventoRow

/-- Errors surfaced by a failed commit.  SQLite NOT NULL violations raise
`IntegrityError`; `storageError` stands for an underlying persistence
failure (spec section 7 `StorageError`), which a real commit can always
raise. -/
inductive DBError where
  | integrityError (msg : String) : DBError
  | storageError : DBError

/-- SQLite rowid assignment for a table declared `INTEGER PRIMARY KEY`
without the `AUTOINCREMENT` keyword: one plus the largest id present
(1 for an empty table).  This is what the models of `define_models` get,
since SQLAlchemy only emits `AUTOINCREMENT` under `sqlite_autoincrement`. -/
def nextId (ids : List Nat) : Nat := ids.foldl max 0 + 1

def empresaIds (db : DB) : List Nat := db.empresas.map (·.empresa_id)

def socioIds (db : DB) : List Nat := db.socios.map (·.socio_id)

def pdfIds (db : DB) : List Nat := db.pdfs.map (·.file_id)

def eventoIds (db : DB) : List Nat := db.eventos.map (·.evento_id)

/-- A pending `Empresa` ORM object before commit. -/
structure EmpresaPending where
  nome : Option String
  forma_juridica : Option String
  data_constituicao : Option Nat

/-- A pending `Socio` ORM object before commit. -/
structure SocioPending where
  nome : Option String
  nif : Option String
  morada : Option String

/-- A pending `PDFFile` ORM object before commit. -/
structure PDFPending where
  nome : Option String
  data_upload : Option Nat
  conteudo : Option String

/-- A pending `EventoEmpresa` ORM object before commit. -/
structure EventoPending where
  empresa_id : Option Nat
  socio_id : Option Nat
  data_evento : Option Nat
  tipo : Option String
  detalhes : Option Json
  arquivo_pdf_id : Option Nat

/-- Commit of a new `Empresa`: SQLite enforces the NOT NULL constraints of
lines 24-26 and assigns the next rowid. -/
def insertEmpresa (db : DB) (p : EmpresaPending) : Except DBError (DB × Nat) :=
  match p.nome, p.forma_juridica, p.data_constituicao with
  | some n, some f, some d =>
    let id := nextId (empresaIds db)
    .ok ({ db with empresas := db.empresas ++ [⟨id, n, f, d⟩] }, id)
  | _, _, _ => .error (DBError.integrityError "NOT NULL constraint failed")

/-- Commit of a new `Socio`: only `nome` is NOT NULL (line 34). -/
def insertSocio (db : DB) (p : SocioPending) : Except DBError (DB × Nat) :=
  match p.nome with
  | some n =>
    let id := nextId (socioIds db)
    .ok ({ db with socios := db.socios ++ [⟨id, n, p.nif, p.morada⟩] }, id)
  | none => .error (DBError.integrityError "NOT NULL constraint failed")

/-- Commit of a new `PDFFile`: all data columns NOT NULL (lines 44-46). -/
def insertPDF (db : DB) (p : PDFPending) : Except DBError (DB × Nat) :=
  match p.nome, p.data_upload, p.conteudo with
  | some n, some d, some c =>
    let id := nextId (pdfIds db)
    .ok ({ db with pdfs := db.pdfs ++ [⟨id, n, d, c⟩] }, id)
  | _, _, _ => .error (DBError.integrityError "NOT NULL constraint failed")

/-- Commit of a new `EventoEmpresa`.  SQLite enforces the NOT NULL
constraints of lines 51-54.  The `ForeignKey` declarations on
`empresa_id`, `socio_id` and `arquivo_pdf_id` are NOT enforced: the engine
of `get_engine` (lines 66-81) never issues `PRAGMA foreign_keys=ON`, and
SQLite leaves foreign keys off by default, so no referential check occurs
here. -/
def insertEvento (db : DB) (p : EventoPending) : Except DBError (DB × Nat) :=
  match p.empresa_id, p.data_evento, p.tipo with
  | some eid, some d, some t =>
    let id := nextId (eventoIds db)
    .ok ({ db with eventos :=
             db.eventos ++ [⟨id, eid, p.socio_id, d, t, p.detalhes, p.arquivo_pdf_id⟩] }, id)
  | _, _, _ => .error (DBError.integrityError "NOT NULL constraint failed")

/-- The collection `empresa.eventos` (relationship of lines 27-29): the
events owned by one company. -/
def eventosOfEmpresa (db : DB) (eid : Nat) : List EventoRow :=
  db.eventos.filter (fun ev => ev.empresa_id == eid)

/-- The collection `socio.eventos` (relationship of lines 37-39). -/
def eventosOfSocio (db : DB) (sid : Nat) : List EventoRow :=
  db.eventos.filter (fun ev => ev.socio_id == some sid)

/-- Remove one event row by primary key, as the ORM does for each cascaded
child. -/
def removeEventoById (evs : List EventoRow) (id : Nat) : List EventoRow :=
  evs.filter (fun ev => ev.evento_id != id)

/-- `session.delete(emp)` for the company with the given id (lines 315-318):
the ORM cascade `all, delete-orphan` on `Empresa.eventos` deletes every
owned event by its primary key, then the company row itself is deleted. -/
def deleteEmpresa (db : DB) (id : Nat) : DB :=
  { db with
    empresas := db.empresas.filter (fun e => e.empresa_id != id),
    eventos := (eventosOfEmpresa db id).foldl
      (fun acc ev => removeEventoById acc ev.evento_id) db.eventos }

/-- `session.delete(soc)` for the partner with the given id (lines 341-344):
the cascade on `Socio.eventos` deletes every event whose `socio_id` is that
partner, then the partner row itself. -/
def deleteSocio (db : DB) (id : Nat) : DB :=
  { db with
    socios := db.socios.filter (fun s => s.socio_id != id),
    eventos := (eventosOfSocio db id).foldl
      (fun acc ev => removeEventoById acc ev.evento_id) db.eventos }

/-- `session.delete(ev)` for one event (lines 370-373): no cascade of its
own. -/
def deleteEvento (db : DB) (id : Nat) : DB :=
  { db with eventos := db.eventos.filter (fun ev => ev.evento_id != id) }

/-- Messages shown by the delete expanders: `st.success`, `st.error` and
`st.warning` are distinct UI outcomes. -/
inductive UIOutcome where
  | successMsg (m : String) : UIOutcome
  | errorMsg (m : String) : UIOutcome
  | warningMsg (m : String) : UIOutcome

/-- The warning of lines 323, 349 and 378. -/
def confirmWarning : String := "Marque confirmar para proceder com a eliminação."

/-- The delete-company expander (lines 310-323): pressing the button with
the confirmation checkbox unchecked only shows a warning. -/
def render_delete_empresa (db : DB) (id_del : Nat) (confirm : Bool) : DB × UIOutcome :=
  if confirm then
    if db.empresas.any (fun e => e.empresa_id == id_del) then
      (deleteEmpresa db id_del, .successMsg ("Empresa " ++ toString id_del ++ " eliminada."))
    else (db, .errorMsg "Empresa não encontrada.")
  else (db, .warningMsg confirmWarning)

/-- The delete-partner expander (lines 336-349). -/
def render_delete_socio (db : DB) (id_del : Nat) (confirm : Bool) : DB × UIOutcome :=
  if confirm then
    if db.socios.any (fun s => s.socio_id == id_del) then
      (deleteSocio db id_del, .successMsg ("Sócio " ++ toString id_del ++ " eliminado."))
    else (db, .errorMsg "Sócio não encontrado.")
  else (db, .warningMsg confirmWarning)

/-- The delete-event expander (lines 365-378). -/
def render_delete_evento (db : DB) (id_del : Nat) (confirm : Bool) : DB × UIOutcome :=
  if confirm then
    if db.eventos.any (fun ev => ev.evento_id == id_del) then
      (deleteEvento db id_del, .successMsg ("Evento " ++ toString id_del ++ " eliminado."))
    else (db, .errorMsg "Evento não encontrado.")
  else (db, .warningMsg confirmWarning)

/-- Lines 91-97, `extrair_texto_pdf_bytes`: the pdfplumber document is a list
of pages; `page.extract_text()` returns an optional string (`None` when the
page has no extractable text), and `or ''` turns `None` into the empty
string before concatenation. -/
def extrair_texto_pdf_bytes (pages : List (Option String)) : String :=
  pages.foldl (fun acc p => acc ++ p.getD "") ""

/-! Model of `json.loads` (the fragment exercised by the application). -/

/-- JSON whitespace. -/
def isJsonWs (c : Char) : Bool := c == ' ' || c == '\t' || c == '\n' || c == '\r'

/-- Drop leading JSON whitespace. -/
def skipWs : List Char → List Char
  | [] => []
  | c :: cs => if isJsonWs c then skipWs cs else c :: cs

/-- The two-character escape sequences of a JSON string, as a lookup table
(`\u` is outside the modelled fragment). -/
def escTable : List (Char × Char) :=
  [('"', '"'), ('\\', '\\'), ('/', '/'), ('n', '\n'), ('t', '\t'),
   ('r', '\r'), ('b', Char.ofNat 8), ('f', Char.ofNat 12)]

/-- Look up one escape character. -/
def escChar (c : Char) : Option Char :=
  (escTable.find? (fun pr => pr.1 == c)).map (fun pr => pr.2)

/-- Parse the body of a JSON string after the opening quote; returns the
characters of the string and the rest of the input after the closing
quote. -/
def parseStringBody : List Char → Option (List Char × List Char)
  | [] => none
  | c :: cs =>
    if c == '"' then some ([], cs)
    else if c == '\\' then
      match cs with
      | [] => none
      | e :: cs' =>
        match escChar e with
        | none => none
        | some ec =>
          match parseStringBody cs' with
          | none => none
          | some (s, rest) => some (ec :: s, rest)
    else
      match parseStringBody cs with
      | none => none
      | some (s, rest) => some (c :: s, rest)

/-- Longest digit run at the head of the input. -/
def parseDigits : List Char → (List Char × List Char)
  | [] => ([], [])
  | c :: cs =>
    if c.isDigit then
      let (ds, rest) := parseDigits cs
      (c :: ds, rest)
    else ([], c :: cs)

def digitsToNat (ds : List Char) : Nat :=
  ds.foldl (fun a c => a * 10 + (c.toNat - 48)) 0

/-- A head that would continue a number beyond an integer (fraction or
exponent): outside the modelled fragment. -/
def isNumCont : List Char → Bool
  | [] => false
  | c :: _ => c == '.' || c == 'e' || c == 'E'

/-- Parse a JSON integer literal. -/
def parseNum (cs : List Char) : Except String (Json × List Char) :=
  match cs with
  | '-' :: rest =>
    match parseDigits rest with
    | ([], _) => .error "Expecting value"
    | (ds, rest') =>
      if isNumCont rest' then .error "number outside the modelled fragment"
      else .ok (.num (-(digitsToNat ds : Int)), rest')
  | _ =>
    match parseDigits cs with
    | ([], _) => .error "Expecting value"
    | (ds, rest') =>
      if isNumCont rest' then .error "number outside the modelled fragment"
      else .ok (.num (digitsToNat ds), rest')

mutual

/-- Parse one JSON value; `fuel` bounds the recursion depth (any fuel of at
least the input length suffices, since each nested level consumes at least
one character). -/
def parseValue : Nat → List Char → Except String (Json × List Char)
  | 0, _ => .error "input too deeply nested"
  | Nat.succ fuel, cs =>
    match skipWs cs with
    | [] => .error "Expecting value"
    | c :: rest =>
      if c == lbrace then
        match parseObjBody fuel rest true with
        | .error e => .error e
        | .ok (ms, rest') => .ok (.obj ms, rest')
      else if c == '[' then
        match parseArrBody fuel rest true with
        | .error e => .error e
        | .ok (vs, rest') => .ok (.arr vs, rest')
      else if c == '"' then
        match parseStringBody rest with
        | some (s, rest') => .ok (.str (String.mk s), rest')
        | none => .error "Unterminated string"
      else if c == 'n' then
        match rest with
        | 'u' :: 'l' :: 'l' :: r => .ok (.null, r)
        | _ => .error "Expecting value"
      else if c == 't' then
        match rest with
        | 'r' :: 'u' :: 'e' :: r => .ok (.bool true, r)
        | _ => .error "Expecting value"
      else if c == 'f' then
        match rest with
        | 'a' :: 'l' :: 's' :: 'e' :: r => .ok (.bool false, r)
        | _ => .error "Expecting value"
      else if c == '-' || c.isDigit then parseNum (c :: rest)
      else .error "Expecting value"

/-- Parse the members of an object after its opening brace (or after a
comma, when `first` is false: then an immediate closing brace is a trailing
comma and is rejected, as in Python). -/
def parseObjBody : Nat → List Char → Bool → Except String (List (String × Json) × List Char)
  | 0, _, _ => .error "input too deeply nested"
  | Nat.succ fuel, cs, first =>
    match skipWs cs with
    | [] => .error "Unterminated object"
    | c :: rest =>
      if first && c == rbrace then .ok ([], rest)
      else if c == '"' then
        match parseStringBody rest with
        | none => .error "Unterminated string"
        | some (k, rest1) =>
          match skipWs rest1 with
          | ':' :: rest2 =>
            match parseValue fuel rest2 with
            | .error e => .error e
            | .ok (v, rest3) =>
              match skipWs rest3 with
              | [] => .error "Unterminated object"
              | c2 :: rest4 =>
                if c2 == ',' then
                  match parseObjBody fuel rest4 false with
                  | .error e => .error e
                  | .ok (ms, rest5) => .ok ((String.mk k, v) :: ms, rest5)
                else if c2 == rbrace then .ok ([(String.mk k, v)], rest4)
                else .error "Expecting comma delimiter"
          | _ => .error "Expecting colon delimiter"
      else .error "Expecting property name"

/-- Parse the elements of an array after its opening bracket (or after a
comma, when `first` is false). -/
def parseArrBody : Nat → List Char → Bool → Except String (List Json × List Char)
  | 0, _, _ => .error "input too deeply nested"
  | Nat.succ fuel, cs, first =>
    match skipWs cs with
    | [] => .error "Unterminated array"
    | c :: rest =>
      if first && c == ']' then .ok ([], rest)
      else
        match parseValue fuel (c :: rest) with
        | .error e => .error e
        | .ok (v, rest1) =>
          match skipWs rest1 with
          | [] => .error "Unterminated array"
          | c2 :: rest2 =>
            if c2 == ',' then
              match parseArrBody fuel rest2 false with
              | .error e => .error e
              | .ok (vs, rest3) => .ok (v :: vs, rest3)
            else if c2 == ']' then .ok ([v], rest2)
            else .error "Expecting comma delimiter"

end

/-- Model of `json.loads`: parse one value and require only whitespace to
follow, as Python does (`Extra data` otherwise). -/
def json_loads (s : String) : Except String Json :=
  match parseValue (s.length + 2) s.toList with
  | .error e => .error e
  | .ok (v, rest) =>
    match skipWs rest with
    | [] => .ok v
    | _ => .error "Extra data"

/-- Python `str` whitespace (the characters `str.strip` removes). -/
def pyIsSpace (c : Char) : Bool :=
  c == ' ' || c == '\t' || c == '\n' || c == '\r' || c == '\x0b' || c == '\x0c'

/-- Drop leading Python whitespace. -/
def dropLeadingWs : List Char → List Char
  | [] => []
  | c :: cs => if pyIsSpace c then dropLeadingWs cs else c :: cs

/-- Python `str.strip()`: remove whitespace at both ends. -/
def pyStrip (cs : List Char) : List Char :=
  ((dropLeadingWs ((dropLeadingWs cs).reverse)).reverse)

/-- Python `detalhes_str.strip().startswith(chr(123))`: after stripping,
the text opens with a left brace. -/
def stripOpensWithBrace (s : String) : Bool :=
  match pyStrip s.toList with
  | [] => false
  | c :: _ => c == lbrace

/-- Line 278: `json.loads(detalhes_str)` when the stripped text opens with
a brace, otherwise wrap the raw input under key `descricao`.  An exception
from `json.loads` propagates (as `Except.error` here). -/
def parseDetalhes (s : String) : Except String Json :=
  if stripOpensWithBrace s then json_loads s
  else .ok (.obj [("descricao", .str s)])

/-! The event-registration workflow of `render_process_pdfs`. -/

/-- The Company-creation branch (lines 194-226).  The code commits the new
`Empresa` first (line 211) and only then builds and commits the
`EventoEmpresa` (line 222); the two commits are separate SQLite
transactions.  `eventCommitFails` injects a failure of the second commit
(e.g. a `StorageError`, spec section 7); the `except` branch of lines
224-226 then rolls back only the pending event, leaving the already
committed company in place.  Returns the final state and whether the
submission succeeded. -/
def registerCriacaoEmpresa (db : DB) (data_ev : Option Nat)
    (nome_emp nif_emp morada_emp cap_emp : String) (pdf_id : Nat)
    (eventCommitFails : Bool) : DB × Bool :=
  match insertEmpresa db ⟨some nome_emp, some "SA", data_ev⟩ with
  | .error _ => (db, false)
  | .ok (db1, eid) =>
    let detalhes := Json.obj [("capital_social", .str cap_emp), ("morada", .str morada_emp)]
    if eventCommitFails then (db1, false)
    else
      match insertEvento db1
          ⟨some eid, none, data_ev, some "Criação Empresa", some detalhes, some pdf_id⟩ with
      | .error _ => (db1, false)
      | .ok (db2, _) => (db2, true)

/-- The generic branch for every other event kind (lines 264-291): parse or
wrap the details text (line 278), then build and commit one
`EventoEmpresa`.  A `json.loads` exception is caught by the `except`
branch (lines 289-291): rollback leaves the state unchanged. -/
def registerGenericEvent (db : DB) (tipo : String) (data_ev : Option Nat)
    (empresa_id : Nat) (socio_id : Option Nat) (detalhes_str : String)
    (pdf_id : Nat) : DB × Bool :=
  match parseDetalhes detalhes_str with
  | .error _ => (db, false)
  | .ok detalhes =>
    match insertEvento db
        ⟨some empresa_id, socio_id, data_ev, some tipo, some detalhes, some pdf_id⟩ with
    | .error _ => (db, false)
    | .ok (db', _) => (db', true)

/-- Retrieval of one event by primary key (as the tables of lines 168-179
and 353-363 display it). -/
def getEvento (db : DB) (id : Nat) : Option EventoRow :=
  db.eventos.find? (fun ev => ev.evento_id == id)

/-! The light migration of `get_engine` (lines 66-81). -/

/-- One column of a SQLite table, with its nullability. -/
structure ColumnSpec where
  name : String
  nullable : Bool
deriving DecidableEq

/-- A SQLite table: its columns and its rows (each row an association list
from column name to stored value, `none` for NULL). -/
structure TableState where
  cols : List ColumnSpec
  rows : List (List (String × Option String))

/-- PRAGMA table_info membership (lines 74 and 77). -/
def hasColumn (t : TableState) (c : String) : Bool :=
  t.cols.any (fun col => col.name == c)

/-- `ALTER TABLE .. ADD COLUMN ..` without NOT NULL: the new column is
nullable and every existing row reads NULL in it. -/
def addNullableColumn (t : TableState) (c : String) : TableState :=
  { cols := t.cols ++ [⟨c, true⟩],
    rows := t.rows.map (fun r => r ++ [(c, none)]) }

/-- Lines 74-76: add `nif` to `socio` when absent. -/
def migrate_socio_table (t : TableState) : TableState :=
  if hasColumn t "nif" then t else addNullableColumn t "nif"

/-- Lines 77-79: add `arquivo_pdf_id` to `evento_empresa` when absent. -/
def migrate_evento_table (t : TableState) : TableState :=
  if hasColumn t "arquivo_pdf_id" then t else addNullableColumn t "arquivo_pdf_id"

/-- The schema upgrade `get_engine` applies to an existing database
(lines 72-79). -/
def get_engine_migrate (socio evento : TableState) : TableState × TableState :=
  (migrate_socio_table socio, migrate_evento_table evento)

/-! Invariants and helper predicates. -/

/-- Primary keys are unique in SQLite; a database reachable through the
application satisfies this for the event table. -/
@[reducible] def wfDB (db : DB) : Prop := (db.eventos.map (·.evento_id)).Nodup

/-- Keep predicate: a company row other than the deleted id. -/
def empKeep (id : Nat) (e : EmpresaRow) : Bool := e.empresa_id != id

/-- Keep predicate: a partner row other than the deleted id. -/
def socKeep (id : Nat) (s : SocioRow) : Bool := s.socio_id != id

/-- Keep predicate: an event row not owned by the deleted company. -/
def evKeepEmpresa (id : Nat) (ev : EventoRow) : Bool := ev.empresa_id != id

/-- Keep predicate: an event row not owned by the deleted partner. -/
def evKeepSocio (id : Nat) (ev : EventoRow) : Bool := ev.socio_id != some id

/-- The new company of a Company-creation submission has legal form SA. -/
def formaIsSA (e : EmpresaRow) : Bool := e.forma_juridica == "SA"

/-- Every id of the list is strictly below the bound. -/
def idsBelow (ids : List Nat) (b : Nat) : Bool := ids.all (fun i => decide (i < b))

/-! Concrete fixtures used by the closed theorems. -/

def emptyDB : DB := ⟨[], [], [], []⟩

/-- One stored PDF, no other rows. -/
def c1db0 : DB := ⟨[], [], [⟨1, "acta.pdf", 10, "PDFBYTES"⟩], []⟩

/-- A Company-creation submission with valid fields whose second commit
(the event write) fails. -/
def c1result : DB × Bool :=
  registerCriacaoEmpresa c1db0 (some 100) "ACME" "" "Rua A" "5000" 1 true

/-- Object-shaped text that is not valid JSON. -/
def c2input : String := "\x7bnot json"

/-- An event insert whose `empresa_id` references no company. -/
def c3pend : EventoPending := ⟨some 1, none, some 50, some "alteracao_contrato", none, none⟩

/-- The state after that insert: the dangling event row is committed. -/
def c3dbAfter : DB := ⟨[], [], [], [⟨1, 1, none, 50, "alteracao_contrato", none, none⟩]⟩

/-- One company and one stored PDF. -/
def c5db0 : DB := ⟨[⟨1, "ACME", "Lda", 5⟩], [], [⟨1, "acta.pdf", 10, "PDFBYTES"⟩], []⟩

/-- The object-shaped details payload of the round-trip property. -/
def c5payload1 : String := "\x7b\"capital\": \"5000\"\x7d"

/-- The free-text details payload of the round-trip property. -/
def c5payload2 : String := "ad-hoc note"

def c5db1 : DB := (registerGenericEvent c5db0 "alteracao_contrato" (some 20) 1 none c5payload1 1).1

def c5db2 : DB := (registerGenericEvent c5db1 "alteracao_contrato" (some 21) 1 none c5payload2 1).1

/-- Two companies, one partner and three events (events 1 and 3 owned by
company 1, event 2 by company 2; event 1 also tied to partner 1). -/
def c4db : DB :=
  ⟨[⟨1, "A", "Lda", 1⟩, ⟨2, "B", "SA", 2⟩],
   [⟨1, "S", none, none⟩],
   [],
   [⟨1, 1, some 1, 10, "t", none, none⟩,
    ⟨2, 2, none, 11, "t", none, none⟩,
    ⟨3, 1, none, 12, "t", none, none⟩]⟩

def c8p1 : EmpresaPending := ⟨some "A", some "Lda", some 1⟩

def c8p2 : EmpresaPending := ⟨some "B", some "SA", some 2⟩

def c8p3 : EmpresaPending := ⟨some "C", some "Lda", some 3⟩

def c8dbA : DB := ⟨[⟨1, "A", "Lda", 1⟩], [], [], []⟩

def c8dbB : DB := ⟨[⟨1, "A", "Lda", 1⟩, ⟨2, "B", "SA", 2⟩], [], [], []⟩

/-- State after re-inserting into `c8dbA`: id 2 is assigned again. -/
def c8dbD : DB := ⟨[⟨1, "A", "Lda", 1⟩, ⟨2, "C", "Lda", 3⟩], [], [], []⟩

/-! Supporting lemmas. -/

/-- Folding the page concatenation from any accumulator prepends the
accumulator. -/
theorem extrair_foldl_acc (l : List (Option String)) :
    ∀ acc : String,
      l.foldl (fun a p => a ++ p.getD "") acc = acc ++ extrair_texto_pdf_bytes l := by
  induction l with
  | nil => intro acc; simp [extrair_texto_pdf_bytes]
  | cons x xs ih =>
    intro acc
    simp only [extrair_texto_pdf_bytes, List.foldl_cons] at ih ⊢
    rw [ih (acc ++ x.getD ""), ih ("" ++ x.getD ""), String.empty_append,
      String.append_assoc]

/-! Claim theorems. -/

/-- C6: `extrair_texto_pdf_bytes` returns exactly the concatenation of the
per-page extracted texts in document order with no separator, and a page
with no extractable text (`none`) contributes the empty string at its
position rather than an error or a gap. -/
theorem extrair_texto_is_ordered_concat :
    (∀ pages : List (Option String),
      extrair_texto_pdf_bytes pages = String.join (pages.map (fun p => p.getD "")))
    ∧ ∀ before after : List (Option String),
        extrair_texto_pdf_bytes (before ++ (none : Option String) :: after)
          = extrair_texto_pdf_bytes before ++ "" ++ extrair_texto_pdf_bytes after := by
  constructor
  · intro pages
    simp [extrair_texto_pdf_bytes, String.join, List.foldl_map]
  · intro before after
    simp only [extrair_texto_pdf_bytes, List.foldl_append, List.foldl_cons]
    rw [extrair_foldl_acc before ""]
    rw [String.empty_append, Option.getD_none, String.append_empty]
    rw [extrair_foldl_acc after (extrair_texto_pdf_bytes before)]
    rfl

/-- C9: pressing any of the three delete buttons without ticking the
confirmation checkbox changes nothing: the database (hence the target
record) is untouched and the outcome is the confirmation-required warning,
a `st.warning`, not an `st.error`. -/
theorem delete_without_confirmation_is_noop :
    ∀ (db : DB) (id : Nat),
      render_delete_empresa db id false = (db, UIOutcome.warningMsg confirmWarning)
      ∧ render_delete_socio db id false = (db, UIOutcome.warningMsg confirmWarning)
      ∧ render_delete_evento db id false = (db, UIOutcome.warningMsg confirmWarning) := by
  intro db id
  exact ⟨rfl, rfl, rfl⟩

/-- C10: whatever the form inputs (and whether or not the event commit
succeeds), every company row added by a Company-creation submission has
legal form SA: the rows appended to the original list all satisfy
`formaIsSA`. -/
theorem criacao_forma_juridica_always_SA :
    ∀ (db : DB) (data_ev : Option Nat) (nome_emp nif_emp morada_emp cap_emp : String)
      (pdf_id : Nat) (eventCommitFails : Bool),
      (((registerCriacaoEmpresa db data_ev nome_emp nif_emp morada_emp cap_emp
          pdf_id eventCommitFails).1.empresas.drop db.empresas.length).all formaIsSA)
        = true := by
  intro db data_ev nome_emp nif_emp morada_emp cap_emp pdf_id eventCommitFails
  cases data_ev with
  | none =>
    simp [registerCriacaoEmpresa, insertEmpresa, List.drop_length]
  | some d =>
    cases eventCommitFails with
    | true =>
      simp [registerCriacaoEmpresa, insertEmpresa, List.drop_left, formaIsSA]
    | false =>
      simp [registerCriacaoEmpresa, insertEmpresa, insertEvento, List.drop_left, formaIsSA]

/-- C2: the structured-parse-or-fallback step of the generic
event-registration path raises on malformed object-shaped text: on the
input of `c2input` (a string opening with a brace that is not valid JSON)
line 278 raises a `json.JSONDecodeError` instead of producing a parsed
object or a free-text wrapper, refuting the never-raises claim; plain text
is wrapped as claimed. -/
theorem parseDetalhes_raises_on_malformed_object_text :
    (∃ msg, parseDetalhes c2input = Except.error msg)
    ∧ parseDetalhes "plain note" = Except.ok (Json.obj [("descricao", Json.str "plain note")]) := by
  exact ⟨⟨"Expecting property name", rfl⟩, rfl⟩

/-- C5: the store-then-retrieve round trip of the two payload shapes.
Registering a generic event with the object-shaped text of `c5payload1`
stores and retrieves the structured object with key `capital` and value
`5000`; registering with the plain text of `c5payload2` stores and
retrieves the wrapper object with key `descricao` and the raw text. -/
theorem detalhes_round_trip :
    (registerGenericEvent c5db0 "alteracao_contrato" (some 20) 1 none c5payload1 1).2 = true
    ∧ (getEvento c5db1 1).map (fun ev => ev.detalhes)
        = some (some (Json.obj [("capital", Json.str "5000")]))
    ∧ (registerGenericEvent c5db1 "alteracao_contrato" (some 21) 1 none c5payload2 1).2 = true
    ∧ (getEvento c5db2 2).map (fun ev => ev.detalhes)
        = some (some (Json.obj [("descricao", Json.str "ad-hoc note")])) := by
  exact ⟨rfl, rfl, rfl, rfl⟩

/-- C1: the two writes of a Company-creation submission are not one
transaction.  On a submission with valid fields whose event commit fails
(the first commit, line 211, already persisted the company), the rollback
of line 225 cannot undo the committed company: the failed registration
leaves the new company in the Companies list and no event row, refuting
the rolls-back claim. -/
theorem criacao_empresa_not_atomic :
    c1result.2 = false
    ∧ c1result.1.empresas = [⟨1, "ACME", "SA", 100⟩]
    ∧ c1result.1.eventos = [] := by
  exact ⟨rfl, rfl, rfl⟩

/-- C3: an `EventoEmpresa` whose `empresa_id` references no existing
company is committed, not rejected: the engine never enables SQLite
foreign-key enforcement, so inserting an event with `empresa_id = 1` into
the empty database succeeds and writes the dangling row, refuting the
ValidationError claim. -/
theorem dangling_empresa_id_is_committed :
    emptyDB.empresas = []
    ∧ insertEvento emptyDB c3pend = Except.ok (c3dbAfter, 1)
    ∧ c3dbAfter.eventos.map (fun ev => ev.empresa_id) = [1] := by
  exact ⟨rfl, rfl, rfl⟩

/-- Either branch of a column migration check: the previous columns stay a
prefix, anything added is nullable, and every previous row is only padded
with NULL cells. -/
theorem migrate_table_additive (t : TableState) (c : String) :
    ((if hasColumn t c then t else addNullableColumn t c).cols.take t.cols.length = t.cols)
    ∧ (((if hasColumn t c then t else addNullableColumn t c).cols.drop t.cols.length).all
        (fun col => col.nullable) = true)
    ∧ (∃ pad, pad.all (fun cell => cell.2.isNone) = true
        ∧ (if hasColumn t c then t else addNullableColumn t c).rows
            = t.rows.map (fun r => r ++ pad)) := by
  by_cases h : hasColumn t c
  · refine ⟨?_, ?_, [], rfl, ?_⟩ <;> simp [h, List.take_length, List.drop_length]
  · refine ⟨?_, ?_, [(c, none)], rfl, ?_⟩ <;>
      simp [h, addNullableColumn, List.take_left, List.drop_left]

/-- C7: on an existing database the initialization of `get_engine` upgrades
the schema only additively: for both migrated tables the original columns
survive as a prefix, every added column is nullable, and every
pre-existing row is preserved unchanged, merely padded with NULL cells for
the added columns. -/
theorem schema_migration_additive_nondestructive :
    ∀ s e : TableState,
      ((get_engine_migrate s e).1.cols.take s.cols.length = s.cols
      ∧ ((get_engine_migrate s e).1.cols.drop s.cols.length).all (fun col => col.nullable) = true
      ∧ (∃ pad, pad.all (fun cell => cell.2.isNone) = true
          ∧ (get_engine_migrate s e).1.rows = s.rows.map (fun r => r ++ pad)))
      ∧ ((get_engine_migrate s e).2.cols.take e.cols.length = e.cols
      ∧ ((get_engine_migrate s e).2.cols.drop e.cols.length).all (fun col => col.nullable) = true
      ∧ (∃ pad, pad.all (fun cell => cell.2.isNone) = true
          ∧ (get_engine_migrate s e).2.rows = e.rows.map (fun r => r ++ pad))) := by
  intro s e
  exact ⟨migrate_table_additive s "nif", migrate_table_additive e "arquivo_pdf_id"⟩

/-- Folding `max` over a list bounds the seed and every element. -/
theorem foldl_max_le (l : List Nat) :
    ∀ b : Nat, b ≤ l.foldl max b ∧ ∀ x ∈ l, x ≤ l.foldl max b := by
  induction l with
  | nil => intro b; exact ⟨Nat.le_refl b, by simp⟩
  | cons a l ih =>
    intro b
    refine ⟨Nat.le_trans (Nat.le_max_left b a) (ih (max b a)).1, ?_⟩
    intro x hx
    rcases List.mem_cons.mp hx with h | h
    · subst h
      exact Nat.le_trans (Nat.le_max_right b x) (ih (max b x)).1
    · exact (ih (max b a)).2 x h

/-- The id SQLite assigns next is strictly above every id present. -/
theorem idsBelow_nextId (ids : List Nat) : idsBelow ids (nextId ids) = true := by
  simp only [idsBelow, nextId, List.all_eq_true, decide_eq_true_eq]
  intro i hi
  exact Nat.lt_succ_of_le ((foldl_max_le ids 0).2 i hi)

/-- C8 counterexample: a deleted primary key is reassigned.  Inserting two
companies gives ids 1 and 2; deleting company 2 (the largest id) and
inserting again assigns id 2 a second time, so primary keys ARE reused
after deletion. -/
theorem pk_reused_after_deletion :
    insertEmpresa emptyDB c8p1 = Except.ok (c8dbA, 1)
    ∧ insertEmpresa c8dbA c8p2 = Except.ok (c8dbB, 2)
    ∧ deleteEmpresa c8dbB 2 = c8dbA
    ∧ insertEmpresa c8dbA c8p3 = Except.ok (c8dbD, 2) := by
  exact ⟨rfl, rfl, rfl, rfl⟩

/-- C8 amended: for every entity kind the primary key is auto-assigned and
sequential — one plus the largest id currently present, hence strictly
above every existing id — but after a deletion removes the largest id,
that id can be assigned again (SQLite `INTEGER PRIMARY KEY` without the
`AUTOINCREMENT` keyword). -/
theorem pk_assignment_max_plus_one :
    ∀ db : DB,
      (∀ p db' id, insertEmpresa db p = Except.ok (db', id) →
        id = nextId (empresaIds db) ∧ idsBelow (empresaIds db) id = true)
      ∧ (∀ p db' id, insertSocio db p = Except.ok (db', id) →
        id = nextId (socioIds db) ∧ idsBelow (socioIds db) id = true)
      ∧ (∀ p db' id, insertPDF db p = Except.ok (db', id) →
        id = nextId (pdfIds db) ∧ idsBelow (pdfIds db) id = true)
      ∧ (∀ p db' id, insertEvento db p = Except.ok (db', id) →
        id = nextId (eventoIds db) ∧ idsBelow (eventoIds db) id = true) := by
  intro db
  refine ⟨?_, ?_, ?_, ?_⟩
  · intro p db' id h
    obtain ⟨n, f, d⟩ := p
    cases n <;> cases f <;> cases d <;> simp [insertEmpresa] at h
    obtain ⟨-, h2⟩ := h
    subst h2
    exact ⟨rfl, idsBelow_nextId _⟩
  · intro p db' id h
    obtain ⟨n, nif, m⟩ := p
    cases n <;> simp [insertSocio] at h
    obtain ⟨-, h2⟩ := h
    subst h2
    exact ⟨rfl, idsBelow_nextId _⟩
  · intro p db' id h
    obtain ⟨n, d, co⟩ := p
    cases n <;> cases d <;> cases co <;> simp [insertPDF] at h
    obtain ⟨-, h2⟩ := h
    subst h2
    exact ⟨rfl, idsBelow_nextId _⟩
  · intro p db' id h
    obtain ⟨eid, sid, d, t, det, pid⟩ := p
    cases eid <;> cases d <;> cases t <;> simp [insertEvento] at h
    obtain ⟨-, h2⟩ := h
    subst h2
    exact ⟨rfl, idsBelow_nextId _⟩

/-- Witness for the amended primary-key assignment at a concrete insert. -/
theorem pk_assignment_max_plus_one_witness :
    2 = nextId (empresaIds c8dbA) ∧ idsBelow (empresaIds c8dbA) 2 = true :=
  (pk_assignment_max_plus_one c8dbA).1 c8p2 c8dbB 2 rfl

/-- Deleting each child of the collection by primary key filters the event
table by the collection's ids. -/
theorem foldl_remove_eq_filter (xs : List EventoRow) :
    ∀ l : List EventoRow,
      xs.foldl (fun acc ev => removeEventoById acc ev.evento_id) l
        = l.filter (fun e => xs.all (fun x => e.evento_id != x.evento_id)) := by
  induction xs with
  | nil => intro l; simp [List.filter_true]
  | cons x xs ih =>
    intro l
    rw [List.foldl_cons, ih]
    simp only [removeEventoById]
    rw [List.filter_filter]
    apply List.filter_congr
    intro e _
    simp [List.all_cons, Bool.and_comm]

/-- With unique event ids, escaping every member of `l.filter p` by id is
the same as not satisfying `p`. -/
theorem filter_children_all (p : EventoRow → Bool) (l : List EventoRow)
    (h : (l.map (fun ev => ev.evento_id)).Nodup) :
    l.filter (fun e => (l.filter p).all (fun x => e.evento_id != x.evento_id))
      = l.filter (fun e => !(p e)) := by
  apply List.filter_congr
  intro e he
  cases hp : p e with
  | true =>
    simp only [hp, Bool.not_true]
    refine List.all_eq_false.mpr ⟨e, List.mem_filter.mpr ⟨he, hp⟩, ?_⟩
    simp
  | false =>
    simp only [hp, Bool.not_false]
    refine List.all_eq_true.mpr ?_
    intro x hx
    rcases List.mem_filter.mp hx with ⟨hxl, hpx⟩
    rw [bne_iff_ne]
    intro heq
    have hex := List.inj_on_of_nodup_map h he hxl heq
    rw [← hex] at hpx
    rw [hp] at hpx
    exact Bool.noConfusion hpx

/-- C4: deleting a Company by id removes exactly its owned events and its
own row, leaving every event of other companies, every partner and every
PDF unchanged; likewise deleting a Partner removes exactly the events tied
to it and its own row, leaving everything else unchanged. -/
theorem delete_cascade_frame :
    ∀ (db : DB) (id : Nat), wfDB db →
      ((deleteEmpresa db id).empresas = db.empresas.filter (empKeep id)
      ∧ (deleteEmpresa db id).eventos = db.eventos.filter (evKeepEmpresa id)
      ∧ (deleteEmpresa db id).socios = db.socios
      ∧ (deleteEmpresa db id).pdfs = db.pdfs)
      ∧ ((deleteSocio db id).socios = db.socios.filter (socKeep id)
      ∧ (deleteSocio db id).eventos = db.eventos.filter (evKeepSocio id)
      ∧ (deleteSocio db id).empresas = db.empresas
      ∧ (deleteSocio db id).pdfs = db.pdfs) := by
  intro db id h
  refine ⟨⟨rfl, ?_, rfl, rfl⟩, ⟨rfl, ?_, rfl, rfl⟩⟩
  · simp only [deleteEmpresa]
    rw [foldl_remove_eq_filter]
    simp only [eventosOfEmpresa]
    rw [filter_children_all (fun ev => ev.empresa_id == id) db.eventos h]
    rfl
  · simp only [deleteSocio]
    rw [foldl_remove_eq_filter]
    simp only [eventosOfSocio]
    rw [filter_children_all (fun ev => ev.socio_id == some id) db.eventos h]
    rfl

/-- Witness for the cascade-and-frame property at a concrete database. -/
theorem delete_cascade_frame_witness :
    wfDB c4db
    ∧ (((deleteEmpresa c4db 1).empresas = c4db.empresas.filter (empKeep 1)
      ∧ (deleteEmpresa c4db 1).eventos = c4db.eventos.filter (evKeepEmpresa 1)
      ∧ (deleteEmpresa c4db 1).socios = c4db.socios
      ∧ (deleteEmpresa c4db 1).pdfs = c4db.pdfs)
      ∧ ((deleteSocio c4db 1).socios = c4db.socios.filter (socKeep 1)
      ∧ (deleteSocio c4db 1).eventos = c4db.eventos.filter (evKeepSocio 1)
      ∧ (deleteSocio c4db 1).empresas = c4db.empresas
      ∧ (deleteSocio c4db 1).pdfs = c4db.pdfs)) :=
  ⟨by decide, delete_cascade_frame c4db 1 (by decide)⟩

end EmpresasApp
